import Mathlib

/-!
A shallow embedding of `tonic-playground` (`src/lib.rs`, `build.rs`) in Lean 4,
together with theorems settling the frozen claims about its specification.

Modelling conventions used throughout:
* Rust `Result<T, E>` is embedded as `Except E T`.
* `std::task::Poll<T>` is embedded as the two-constructor inductive `Poll`.
* A Rust `Future` in this codebase never suspends on anything modelled here, so
  a future is embedded as the value it resolves to (`RFuture α := α`); `Box::pin`
  is the identity on that resolved value (`boxPin`).
* A `Stream<Item = T>` / `tonic::codec::Streaming<T>` is embedded as `List T`
  (a finite sequence of items, forwarded in order).
* A trait with `&mut self` methods is embedded as a structure of functions in
  explicit-state-passing style: each operation takes the current state and
  returns the new state alongside its result.
-/

/-- Embeds `std::task::Context` (`cx: &mut Context<'_>`).  The codebase never
inspects the context (it only forwards it), so it is an opaque token. -/
structure Ctx where
  token : Nat
deriving DecidableEq, Repr

/-- Embeds `pub struct Error;` (src/lib.rs:9): a unit struct with no fields. -/
structure Error
deriving DecidableEq, Repr

/-- Embeds `std::task::Poll`: `Ready(a)` or `Pending`.  `Pending` is a nullary
constructor, exactly as in the standard library. -/
inductive Poll (α : Type) : Type where
  | ready (a : α) : Poll α
  | pending : Poll α
deriving DecidableEq, Repr

/-- Embeds `tonic::Status` (external `tonic` crate; the spec describes it as a
status code plus message): a machine-readable code and a human-readable
message. -/
structure Status where
  code : Nat
  message : String
deriving DecidableEq, Repr

/-- Embeds `tonic::Request<T>`: the request envelope, wrapping the request
value together with call metadata. -/
structure TonicRequest (α : Type) : Type where
  message : α
  metadata : List (String × String)
deriving DecidableEq, Repr

/-- Embeds `tonic::Response<T>`: the response envelope, wrapping the response
value together with trailing metadata. -/
structure TonicResponse (α : Type) : Type where
  message : α
  metadata : List (String × String)
deriving DecidableEq, Repr

/-- A future embedded as the value it resolves to (see module comment). -/
def RFuture (α : Type) : Type := α

/-- Embeds `Box::pin(fut)` (src/lib.rs:53): pinning/boxing does not change the
value the future resolves to. -/
def boxPin {α : Type} (f : RFuture α) : RFuture α := f

/-- Embeds the external `tower::Service<Request>` trait (with `Error = Error`
and a `Send + Sync + 'static` future, as required by the blanket impl at
src/lib.rs:41-45), in explicit-state-passing style over a state type `σ`. -/
structure Tower.Service (σ Req Res : Type) : Type where
  poll_ready : σ → Ctx → σ × Poll (Except Error Unit)
  call : σ → Req → σ × RFuture (Except Error Res)

/-- Embeds the crate's own `pub trait Service<Request>` (src/lib.rs:11-39):
`poll_ready(&mut self, cx) -> Poll<Result<(), Error>>` and
`call(&mut self, req) -> Pin<Box<dyn Future<Output = Result<Response, Error>>>>`. -/
structure Service (σ Req Res : Type) : Type where
  poll_ready : σ → Ctx → σ × Poll (Except Error Unit)
  call : σ → Req → σ × RFuture (Except Error Res)

/-- Embeds the blanket impl `impl<Request, T> Service<Request> for T where
T: tower::Service<Request, Error = Error>` (src/lib.rs:41-55): `poll_ready`
forwards to the underlying `poll_ready`, and `call` returns
`Box::pin(self.call(req))`. -/
def blanketImpl {σ Req Res : Type} (t : Tower.Service σ Req Res) :
    Service σ Req Res where
  poll_ready := fun s cx => t.poll_ready s cx
  call := fun s req =>
    let p := t.call s req
    (p.1, boxPin p.2)

/-- The operations of a `Service`, used to record which of them an
implementation invokes on its underlying service. -/
inductive ServiceOp : Type where
  | pollReadyOp : ServiceOp
  | callOp : ServiceOp
deriving DecidableEq, Repr

/-- Wraps a `tower::Service` so that its state also records, in order, every
operation invoked on it.  Used to observe which underlying operations the
blanket impl performs. -/
def instrument {σ Req Res : Type} (t : Tower.Service σ Req Res) :
    Tower.Service (σ × List ServiceOp) Req Res where
  poll_ready := fun s cx =>
    let p := t.poll_ready s.1 cx
    ((p.1, s.2 ++ [ServiceOp.pollReadyOp]), p.2)
  call := fun s req =>
    let p := t.call s.1 req
    ((p.1, s.2 ++ [ServiceOp.callOp]), p.2)

/-- Models the schema-generated message type `Foo` from
`crate::proto::tonic_playground` (the generated `src/proto/` output of
`build.rs` is part of this repository but absent from `src/`); its fields are
irrelevant to every claim, so it is an opaque single-field record. -/
structure Foo where
  payload : Nat
deriving DecidableEq, Repr

/-- Models the schema-generated message type `Bar` from
`crate::proto::tonic_playground`, like `Foo` an opaque single-field record. -/
structure Bar where
  payload : Nat
deriving DecidableEq, Repr

/-- Embeds `pub struct Request(Foo)` of `pub mod unary_unary`
(src/lib.rs:130-135): a tuple-struct wrapper around `Foo`. -/
structure unary_unary.Request where
  f0 : Foo
deriving DecidableEq, Repr

/-- Embeds `pub struct Response(Bar)` of `pub mod unary_unary`
(src/lib.rs:130-135): a tuple-struct wrapper around `Bar`. -/
structure unary_unary.Response where
  f0 : Bar
deriving DecidableEq, Repr

/-- Embeds `pub struct Request(Foo)` of `pub mod unary_streaming`
(src/lib.rs:137-142). -/
structure unary_streaming.Request where
  f0 : Foo
deriving DecidableEq, Repr

/-- Embeds `pub struct Response(Bar)` of `pub mod unary_streaming`
(src/lib.rs:137-142). -/
structure unary_streaming.Response where
  f0 : Bar
deriving DecidableEq, Repr

/-- Embeds `pub struct Request(Foo)` of `pub mod streaming_unary`
(src/lib.rs:144-149). -/
structure streaming_unary.Request where
  f0 : Foo
deriving DecidableEq, Repr

/-- Embeds `pub struct Response(Bar)` of `pub mod streaming_unary`
(src/lib.rs:144-149). -/
structure streaming_unary.Response where
  f0 : Bar
deriving DecidableEq, Repr

/-- Embeds `pub struct Request(Foo)` of `pub mod streaming_streaming`
(src/lib.rs:151-156). -/
structure streaming_streaming.Request where
  f0 : Foo
deriving DecidableEq, Repr

/-- Embeds `pub struct Response(Bar)` of `pub mod streaming_streaming`
(src/lib.rs:151-156). -/
structure streaming_streaming.Response where
  f0 : Bar
deriving DecidableEq, Repr

/-- Embeds a `Box<dyn Service<Req, Response = Res>>` trait object as returned
by the `ServicePerEndpoint` methods (src/lib.rs:80-117): a bundle of a hidden
state type, its current state, and the two `Service` operations. -/
structure ServiceObj (Req Res : Type) : Type 1 where
  State : Type
  state : State
  poll_ready : State → Ctx → State × Poll (Except Error Unit)
  call : State → Req → State × RFuture (Except Error Res)

/-- Invoking `call` once on a boxed service at its current state, yielding the
value the returned future resolves to. -/
def ServiceObj.invoke {Req Res : Type} (o : ServiceObj Req Res) (req : Req) :
    Except Error Res :=
  (o.call o.state req).2

/-- Embeds `trait MethodPerEndpoint` (src/lib.rs:57-78): one async operation
per endpoint shape, taking the request envelope and resolving to
`Result<tonic::Response<_>, tonic::Status>`.  Streaming sides are embedded as
`List` of the per-shape message types. -/
structure MethodPerEndpoint : Type where
  unary_unary : TonicRequest unary_unary.Request →
    Except Status (TonicResponse unary_unary.Response)
  unary_streaming : TonicRequest unary_streaming.Request →
    Except Status (TonicResponse (List unary_streaming.Response))
  streaming_unary : TonicRequest (List streaming_unary.Request) →
    Except Status (TonicResponse streaming_unary.Response)
  streaming_streaming : TonicRequest (List streaming_streaming.Request) →
    Except Status (TonicResponse (List streaming_streaming.Response))

/-- Embeds `trait ServicePerEndpoint` (src/lib.rs:80-117): per endpoint shape,
a boxed `Service` whose request is the request envelope for that shape and
whose `Response` associated type is `Result<tonic::Response<_>, tonic::Status>`. -/
structure ServicePerEndpoint : Type 1 where
  unary_unary : ServiceObj (TonicRequest unary_unary.Request)
    (Except Status (TonicResponse unary_unary.Response))
  unary_streaming : ServiceObj (TonicRequest unary_streaming.Request)
    (Except Status (TonicResponse (List unary_streaming.Response)))
  streaming_unary : ServiceObj (TonicRequest (List streaming_unary.Request))
    (Except Status (TonicResponse streaming_unary.Response))
  streaming_streaming : ServiceObj (TonicRequest (List streaming_streaming.Request))
    (Except Status (TonicResponse (List streaming_streaming.Response)))

/-- Collapses one `Service` call outcome of a `ServicePerEndpoint` endpoint
(`Result<Result<tonic::Response<_>, Status>, Error>`) to the method-level
outcome (`Result<tonic::Response<_>, Status>`); the information-free outer
`Error` is rendered as a `Status` by the supplied `onErr`. -/
def flattenWith {R : Type} (onErr : Error → Status)
    (c : Except Error (Except Status R)) : Except Status R :=
  match c with
  | Except.ok inner => inner
  | Except.error e => Except.error (onErr e)

/-- Modelled from the spec: the conversion declared by the unimplemented trait
`ServicePerEndpointToMethodPerEndpoint` (src/lib.rs:119-128; the repository
contains no implementation of it).  Per spec §4.3 and §9, the produced
Method-Style Adapter dispatches each endpoint shape to the corresponding
`call` of the Service-Style Adapter, preserving per-call semantics;
`onErr` renders the adapter layer's fieldless `Error` as a transport `Status`. -/
def to_method_per_endpoint (onErr : Error → Status)
    (s : ServicePerEndpoint) : MethodPerEndpoint where
  unary_unary := fun req => flattenWith onErr (s.unary_unary.invoke req)
  unary_streaming := fun req => flattenWith onErr (s.unary_streaming.invoke req)
  streaming_unary := fun req => flattenWith onErr (s.streaming_unary.invoke req)
  streaming_streaming := fun req =>
    flattenWith onErr (s.streaming_streaming.invoke req)

/-- The success/failure outcome and response value(s) observable from a
method-level result: the response envelope on success, or a failure marker. -/
def methObs {R : Type} (m : Except Status R) : Except Unit R :=
  match m with
  | Except.ok r => Except.ok r
  | Except.error _ => Except.error ()

/-- The success/failure outcome and response value(s) observable from a
service-level `call` outcome: the response envelope when both layers succeed,
or a failure marker. -/
def callObs {R : Type} (c : Except Error (Except Status R)) : Except Unit R :=
  match c with
  | Except.ok (Except.ok r) => Except.ok r
  | Except.ok (Except.error _) => Except.error ()
  | Except.error _ => Except.error ()

/-- Rust item visibility: `pub` or crate-private (no modifier). -/
inductive Vis : Type where
  | visPub : Vis
  | visPriv : Vis
deriving DecidableEq, Repr

/-- What a trait declaration of this crate looks like from outside: its
visibility and how many request/response type parameters it takes. -/
structure TraitDecl where
  vis : Vis
  typeParams : Nat
deriving DecidableEq, Repr

/-- Embeds the declaration header `pub trait Service<Request>` (src/lib.rs:11):
public, parameterized over one arbitrary request type (with an associated
response type). -/
def Service_decl : TraitDecl where
  vis := Vis.visPub
  typeParams := 1

/-- Embeds the declaration header `trait MethodPerEndpoint` (src/lib.rs:58):
no `pub` modifier, and no request/response type parameters (all payload types
are fixed to the concrete per-shape wrapper types). -/
def MethodPerEndpoint_decl : TraitDecl where
  vis := Vis.visPriv
  typeParams := 0

/-- Embeds the declaration header `trait ServicePerEndpoint` (src/lib.rs:80):
no `pub` modifier, and no request/response type parameters. -/
def ServicePerEndpoint_decl : TraitDecl where
  vis := Vis.visPriv
  typeParams := 0

/-- The shape of a request stream's item type, as declared in
`ServicePerEndpoint`: either the plain request message type, or a
`Result<message, Status>` that could also carry a mid-stream failure. -/
inductive StreamItemShape : Type where
  | plainMessage : StreamItemShape
  | messageResult : StreamItemShape
deriving DecidableEq, Repr

/-- Embeds the request stream item type of `ServicePerEndpoint::streaming_unary`
(src/lib.rs:102, `Item = streaming_unary::Request`): the plain message type. -/
def streamingUnary_reqItemShape : StreamItemShape := StreamItemShape.plainMessage

/-- Embeds the request stream item type of
`ServicePerEndpoint::streaming_streaming` (src/lib.rs:112,
`Item = streaming_streaming::Request`): the plain message type. -/
def streamingStreaming_reqItemShape : StreamItemShape := StreamItemShape.plainMessage

/-- Interprets a request-stream item shape for the `streaming_unary` endpoint
as the Lean type of one stream item. -/
def StreamItemShape.interpSU : StreamItemShape → Type
  | StreamItemShape.plainMessage => streaming_unary.Request
  | StreamItemShape.messageResult => Except Status streaming_unary.Request

/-- An attempt to attach a reason to the adapter layer's `NotReady` readiness
outcome.  In the source that outcome is `Poll::Pending` (src/lib.rs:24), a
nullary constructor, so the reason necessarily has nowhere to go and is
dropped. -/
def mkNotReady (reason : String) : Poll (Except Error Unit) :=
  let _ := reason
  Poll.pending

/-- An attempt to build the adapter layer's error value (the `Error` in the
`Result` of `poll_ready` and `call`) out of a machine-readable code and a
human-readable message.  `pub struct Error;` (src/lib.rs:9) has no fields, so
both are necessarily dropped. -/
def errorWithCodeAndMessage (code : Nat) (message : String) : Error :=
  let _ := code
  let _ := message
  Error.mk

/-- Modelled from the spec: resource saturation of the underlying transport
(spec §4.2 and §8: "if the underlying resource is saturated, the returned
asynchronous result resolves to an error"; "succeeds whenever the resource is
actually available").  The source declares no such notion, so it is an
abstract predicate on the underlying service's state. -/
structure ResourceModel (σ : Type) where
  saturated : σ → Bool

/-- Modelled from the spec: a `tower::Service` respects a resource model when
a `call` in a saturated state resolves to an error and a `call` in an
available state succeeds (spec §4.2 and §8). -/
def RespectsResource {σ Req Res : Type} (t : Tower.Service σ Req Res)
    (r : ResourceModel σ) : Prop :=
  ∀ s req,
    (r.saturated s = true → ∃ e, (t.call s req).2 = Except.error e) ∧
    (r.saturated s = false → ∃ v, (t.call s req).2 = Except.ok v)

/-- Collapsing a service-level call outcome to the method level preserves the
observable success/failure outcome and response value(s). -/
theorem methObs_flattenWith {R : Type} (onErr : Error → Status)
    (c : Except Error (Except Status R)) :
    methObs (flattenWith onErr c) = callObs c := by
  cases c with
  | error e => rfl
  | ok inner =>
    cases inner with
    | error st => rfl
    | ok r => rfl

/-- Claim C1: for every one of the four endpoint shapes, applying the
converter `to_method_per_endpoint` to a Service-Style Adapter and invoking the
resulting Method-Style Adapter's operation on a request envelope yields the
same success/failure outcome and the same response value(s) as invoking that
Service-Style Adapter's `call` directly with the same request envelope. -/
theorem converter_preserves_per_call_semantics (onErr : Error → Status)
    (s : ServicePerEndpoint) :
    (∀ req, methObs ((to_method_per_endpoint onErr s).unary_unary req) =
      callObs (s.unary_unary.invoke req)) ∧
    (∀ req, methObs ((to_method_per_endpoint onErr s).unary_streaming req) =
      callObs (s.unary_streaming.invoke req)) ∧
    (∀ req, methObs ((to_method_per_endpoint onErr s).streaming_unary req) =
      callObs (s.streaming_unary.invoke req)) ∧
    (∀ req, methObs ((to_method_per_endpoint onErr s).streaming_streaming req) =
      callObs (s.streaming_streaming.invoke req)) :=
  ⟨fun req => methObs_flattenWith onErr (s.unary_unary.invoke req),
   fun req => methObs_flattenWith onErr (s.unary_streaming.invoke req),
   fun req => methObs_flattenWith onErr (s.streaming_unary.invoke req),
   fun req => methObs_flattenWith onErr (s.streaming_streaming.invoke req)⟩

/-- Claim C2: the blanket `Service` implementation over a `tower::Service` is
a pure pass-through: its `poll_ready` returns exactly the underlying
`poll_ready` result, and its `call` returns exactly the underlying call
(state and resolved value alike), so any error value is forwarded unchanged. -/
theorem blanket_impl_is_pass_through {σ Req Res : Type}
    (t : Tower.Service σ Req Res) (s : σ) (cx : Ctx) (req : Req) :
    (blanketImpl t).poll_ready s cx = t.poll_ready s cx ∧
    (blanketImpl t).call s req = t.call s req ∧
    ((blanketImpl t).call s req).2 = (t.call s req).2 :=
  ⟨rfl, rfl, rfl⟩

/-- Claim C7: the blanket implementation's `call`, run against an
operation-recording underlying service, appends exactly one `callOp` to the
record and never a `pollReadyOp`: `call` invokes only the underlying
service's `call`, never `poll_ready`. -/
theorem blanket_call_never_invokes_poll_ready {σ Req Res : Type}
    (t : Tower.Service σ Req Res) (s : σ) (log : List ServiceOp) (req : Req) :
    ((blanketImpl (instrument t)).call (s, log) req).1.2 =
      log ++ [ServiceOp.callOp] ∧
    (((blanketImpl (instrument t)).call (s, []) req).1.2.count
      ServiceOp.pollReadyOp) = 0 :=
  ⟨rfl, rfl⟩

/-- Claim C8: every streaming-request method (`streaming_unary` and
`streaming_streaming`) invoked through the converter with an empty request
stream still terminates in a well-defined outcome: the result is exactly the
collapse of the underlying call at the empty-stream envelope, and it is
either a response or an error. -/
theorem empty_request_stream_still_completes (onErr : Error → Status)
    (s : ServicePerEndpoint) (meta : List (String × String)) :
    ((to_method_per_endpoint onErr s).streaming_unary ⟨[], meta⟩ =
      flattenWith onErr (s.streaming_unary.invoke ⟨[], meta⟩) ∧
    ((∃ resp, (to_method_per_endpoint onErr s).streaming_unary ⟨[], meta⟩ =
        Except.ok resp) ∨
      (∃ st, (to_method_per_endpoint onErr s).streaming_unary ⟨[], meta⟩ =
        Except.error st))) ∧
    ((to_method_per_endpoint onErr s).streaming_streaming ⟨[], meta⟩ =
      flattenWith onErr (s.streaming_streaming.invoke ⟨[], meta⟩) ∧
    ((∃ resp, (to_method_per_endpoint onErr s).streaming_streaming ⟨[], meta⟩ =
        Except.ok resp) ∨
      (∃ st, (to_method_per_endpoint onErr s).streaming_streaming ⟨[], meta⟩ =
        Except.error st))) := by
  refine ⟨⟨rfl, ?_⟩, ⟨rfl, ?_⟩⟩
  · rcases h : (to_method_per_endpoint onErr s).streaming_unary ⟨[], meta⟩ with st | resp
    · exact Or.inr ⟨st, rfl⟩
    · exact Or.inl ⟨resp, rfl⟩
  · rcases h : (to_method_per_endpoint onErr s).streaming_streaming ⟨[], meta⟩ with st | resp
    · exact Or.inr ⟨st, rfl⟩
    · exact Or.inl ⟨resp, rfl⟩

/-- Claim C3: `call` invoked with zero prior `poll_ready` invocations (the
operation record of the underlying service stays free of `pollReadyOp`) is a
total operation whose result, under the spec's resource model, resolves to an
error when the resource is saturated and to a success when the resource is
available. -/
theorem call_without_poll_ready_is_safe {σ Req Res : Type}
    (t : Tower.Service σ Req Res) (r : ResourceModel σ)
    (hc : RespectsResource t r) (s : σ) (req : Req) :
    ((blanketImpl (instrument t)).call (s, []) req).1.2 = [ServiceOp.callOp] ∧
    (r.saturated s = true →
      ∃ e, ((blanketImpl (instrument t)).call (s, []) req).2 = Except.error e) ∧
    (r.saturated s = false →
      ∃ v, ((blanketImpl (instrument t)).call (s, []) req).2 = Except.ok v) :=
  ⟨rfl, (hc s req).1, (hc s req).2⟩

/-- A minimal concrete `tower::Service` whose state is a boolean saturation
flag: a call in the saturated state fails, a call in the available state
succeeds.  Used to instantiate theorems about the blanket impl. -/
def demoTower : Tower.Service Bool Unit Unit where
  poll_ready := fun s _ => (s, Poll.ready (Except.ok ()))
  call := fun s _ => (s, if s then Except.error Error.mk else Except.ok ())

/-- The resource model of `demoTower`: its state is its saturation flag. -/
def demoResource : ResourceModel Bool where
  saturated := fun s => s

/-- Concrete instance of `call_without_poll_ready_is_safe`: on `demoTower` in
the available state, with zero prior `poll_ready` invocations, the call
succeeds. -/
theorem call_without_poll_ready_is_safe_witness :
    ∃ v, ((blanketImpl (instrument demoTower)).call (false, []) ()).2 =
      Except.ok v :=
  (call_without_poll_ready_is_safe demoTower demoResource
    (by
      intro s req
      cases s with
      | false => exact ⟨fun h => absurd h (by decide), fun _ => ⟨(), rfl⟩⟩
      | true => exact ⟨fun _ => ⟨Error.mk, rfl⟩, fun h => absurd h (by decide)⟩)
    false ()).2.2 rfl

/-- Claim C4, counterexample: the error value in the `Result` of `poll_ready`
and `call` is `Error`, a fieldless unit struct, so two errors built from
entirely different codes and messages are the same value: no machine-readable
category or human-readable message is carried. -/
theorem adapter_error_drops_code_and_message :
    errorWithCodeAndMessage 4 "deadline exceeded" =
      errorWithCodeAndMessage 13 "internal" := rfl

/-- Claim C4, amended: all values of the adapter layer's `Error` type are
equal (it carries neither category nor message), while the transport's
`Status` type is what carries the machine-readable code and human-readable
message. -/
theorem adapter_error_is_information_free :
    (∀ e₁ e₂ : Error, e₁ = e₂) ∧
    (∀ c m, (Status.mk c m).code = c ∧ (Status.mk c m).message = m) :=
  ⟨fun e₁ e₂ => by cases e₁; cases e₂; rfl, fun c m => ⟨rfl, rfl⟩⟩

/-- Claim C5, counterexample: the `MethodPerEndpoint` and `ServicePerEndpoint`
trait declarations carry no `pub` modifier and no request/response type
parameters, so neither is part of the exposed public interface nor
parameterized over arbitrary request/response value types. -/
theorem per_endpoint_traits_are_private_and_monomorphic :
    MethodPerEndpoint_decl.vis = Vis.visPriv ∧
    ServicePerEndpoint_decl.vis = Vis.visPriv ∧
    MethodPerEndpoint_decl.typeParams = 0 ∧
    ServicePerEndpoint_decl.typeParams = 0 :=
  ⟨rfl, rfl, rfl, rfl⟩

/-- Claim C5, amended: the only trait in the exposed public interface is
`Service`, parameterized over an arbitrary request type (with an associated
response type); the two per-endpoint adapter traits are crate-private. -/
theorem public_interface_exposes_generic_service_only :
    Service_decl.vis = Vis.visPub ∧
    Service_decl.typeParams = 1 ∧
    MethodPerEndpoint_decl.vis = Vis.visPriv ∧
    ServicePerEndpoint_decl.vis = Vis.visPriv :=
  ⟨rfl, rfl, rfl, rfl⟩

/-- Claim C6, counterexample: the `NotReady` outcome of a readiness poll is
the nullary `Poll.pending`, so two `NotReady` outcomes built from entirely
different reasons are the same value: no reason is carried. -/
theorem not_ready_carries_no_reason :
    mkNotReady "at capacity" = mkNotReady "buffer full" := rfl

/-- Claim C6, amended: the outcome of one readiness poll
(`Poll<Result<(), Error>>`) is exactly one of three values: Ready,
NotReady (carrying no reason), or Errored; no fourth outcome is possible. -/
theorem poll_ready_has_exactly_three_outcomes (o : Poll (Except Error Unit)) :
    o = Poll.ready (Except.ok ()) ∨ o = Poll.pending ∨
      o = Poll.ready (Except.error Error.mk) := by
  cases o with
  | pending => exact Or.inr (Or.inl rfl)
  | ready res =>
    cases res with
    | ok u => exact Or.inl rfl
    | error e => exact Or.inr (Or.inr (by cases e; rfl))

/-- Claim C9: in each of the four endpoint-shape modules the `Request` type is
exactly a wrapper of the one shared proto type `Foo` and the `Response` type
is exactly a wrapper of the one shared proto type `Bar`: every wrapper
constructor out of `Foo`/`Bar` is inverted by its field projection, in both
directions. -/
theorem all_four_shapes_wrap_foo_and_bar :
    ((∀ f : Foo, (unary_unary.Request.mk f).f0 = f) ∧
      (∀ r : unary_unary.Request, unary_unary.Request.mk r.f0 = r)) ∧
    ((∀ b : Bar, (unary_unary.Response.mk b).f0 = b) ∧
      (∀ r : unary_unary.Response, unary_unary.Response.mk r.f0 = r)) ∧
    ((∀ f : Foo, (unary_streaming.Request.mk f).f0 = f) ∧
      (∀ r : unary_streaming.Request, unary_streaming.Request.mk r.f0 = r)) ∧
    ((∀ b : Bar, (unary_streaming.Response.mk b).f0 = b) ∧
      (∀ r : unary_streaming.Response, unary_streaming.Response.mk r.f0 = r)) ∧
    ((∀ f : Foo, (streaming_unary.Request.mk f).f0 = f) ∧
      (∀ r : streaming_unary.Request, streaming_unary.Request.mk r.f0 = r)) ∧
    ((∀ b : Bar, (streaming_unary.Response.mk b).f0 = b) ∧
      (∀ r : streaming_unary.Response, streaming_unary.Response.mk r.f0 = r)) ∧
    ((∀ f : Foo, (streaming_streaming.Request.mk f).f0 = f) ∧
      (∀ r : streaming_streaming.Request, streaming_streaming.Request.mk r.f0 = r)) ∧
    ((∀ b : Bar, (streaming_streaming.Response.mk b).f0 = b) ∧
      (∀ r : streaming_streaming.Response, streaming_streaming.Response.mk r.f0 = r)) :=
  ⟨⟨fun _ => rfl, fun _ => rfl⟩, ⟨fun _ => rfl, fun _ => rfl⟩,
   ⟨fun _ => rfl, fun _ => rfl⟩, ⟨fun _ => rfl, fun _ => rfl⟩,
   ⟨fun _ => rfl, fun _ => rfl⟩, ⟨fun _ => rfl, fun _ => rfl⟩,
   ⟨fun _ => rfl, fun _ => rfl⟩, ⟨fun _ => rfl, fun _ => rfl⟩⟩

/-- Claim C10: in the Service-Style Adapter, the item type of a streaming
request side is the plain request message type and not a
`Result<message, Status>`, for both streaming-request endpoints; consequently
every item of such a stream is a plain message value, and a mid-stream
failure has no representation in this interface. -/
theorem request_stream_items_are_plain_messages :
    streamingUnary_reqItemShape = StreamItemShape.plainMessage ∧
    streamingStreaming_reqItemShape = StreamItemShape.plainMessage ∧
    (streamingUnary_reqItemShape == StreamItemShape.messageResult) = false ∧
    (streamingStreaming_reqItemShape == StreamItemShape.messageResult) = false ∧
    (∀ x : StreamItemShape.interpSU streamingUnary_reqItemShape,
      ∃ m : streaming_unary.Request, x = m) :=
  ⟨rfl, rfl, rfl, rfl, fun x => ⟨x, rfl⟩⟩
